import Mathlib

/-!
Shallow embedding of the PDF anonymization / annotation core of the
resumeLib repository (src/services/anonymizer_service.py and
src/services/pdf_service.py), together with proofs settling the frozen
claims about it.

Conventions of the embedding:
* Python floats are modelled as `Rat` (all constants in the code are
  exact decimals).
* Calls into the PyMuPDF library (`fitz`) are modelled either by explicit
  state (pages as lists of text spans plus a list of drawing operations)
  or, where only the call's interface matters, by oracle functions carried
  in a `PdfLib` / `DetPage` record.
* Python exceptions are modelled with `Except String`.
* The uuid supply for detection ids is modelled by an explicitly threaded
  natural-number counter.
-/

/-! ## Geometry: fitz rectangles, points and the BoundingBox dictionaries -/

/-- A fitz rectangle, given by its two corners. -/
structure Rect where
  x0 : Rat
  y0 : Rat
  x1 : Rat
  y1 : Rat
deriving Repr, DecidableEq

/-- A fitz point. -/
structure Point where
  x : Rat
  y : Rat
deriving Repr, DecidableEq

/-- The bbox dictionary produced by the detection pipeline. -/
structure BBox where
  x : Rat
  y : Rat
  width : Rat
  height : Rat
deriving Repr, DecidableEq

/-- Embeds the bbox dictionary built from a fitz rect:
x = x0, y = y0, width = x1 - x0, height = y1 - y0. -/
def rectToBBox (r : Rect) : BBox :=
  { x := r.x0, y := r.y0, width := r.x1 - r.x0, height := r.y1 - r.y0 }

/-- Embeds `fitz.Rect(bbox.x, bbox.y, bbox.x + bbox.width, bbox.y + bbox.height)`. -/
def bboxToRect (b : BBox) : Rect :=
  { x0 := b.x, y0 := b.y, x1 := b.x + b.width, y1 := b.y + b.height }

/-- Height of a fitz rect (`rect.height`). -/
def Rect.heightOf (r : Rect) : Rat := r.y1 - r.y0

/-- Embeds `fitz.Rect.intersects`: true when the two rectangles share a
rectangle of positive extent. -/
def rectIntersects (a b : Rect) : Bool :=
  max a.x0 b.x0 < min a.x1 b.x1 && max a.y0 b.y0 < min a.y1 b.y1

/-! ## Python string helpers -/

/-- Whitespace characters removed by Python `str.strip()`. -/
def isPyWhitespace (c : Char) : Bool :=
  c = ' ' || c = '\t' || c = '\n' || c = '\r' || c = '\x0b' || c = '\x0c'

/-- Embeds Python `str.strip()`. -/
def pyStrip (s : String) : String :=
  String.mk (((s.data.dropWhile isPyWhitespace).reverse.dropWhile isPyWhitespace).reverse)

/-- Embeds Python `str.lower()` (ASCII case folding on the char list). -/
def pyLower (s : String) : String :=
  String.mk (s.data.map Char.toLower)

/-- Helper: does `sub` occur at the head of `hay`? -/
def listHasPref : List Char → List Char → Bool
  | _, [] => true
  | [], _ :: _ => false
  | a :: as, b :: bs => a = b && listHasPref as bs

/-- Helper: does `sub` occur contiguously anywhere in `hay`? -/
def listHasSub (hay sub : List Char) : Bool :=
  match hay with
  | [] => sub.isEmpty
  | _ :: t => listHasPref hay sub || listHasSub t sub

/-- Embeds Python `sub in hay` on strings. -/
def strContains (hay sub : String) : Bool :=
  listHasSub hay.data sub.data

/-! ## Font classifier (`AnonymizerService._map_to_builtin_font`) -/

/-- Embeds `_map_to_builtin_font`: lower-case the font name and test it
for substrings from three keyword tables in order sans, serif, mono;
default is the sans font "helv". -/
def map_to_builtin_font (font_name : String) : String :=
  let font_lower := pyLower font_name
  let sans_serif := ["arial", "helvetica", "calibri", "verdana", "tahoma",
                     "segoe", "sans", "gill"]
  if sans_serif.any (fun s => strContains font_lower s) then "helv"
  else
    let serif := ["times", "georgia", "garamond", "palatino", "baskerville",
                  "cambria", "serif"]
    if serif.any (fun s => strContains font_lower s) then "tiro"
    else
      let monospace := ["courier", "consolas", "monaco", "monospace", "mono"]
      if monospace.any (fun s => strContains font_lower s) then "cour"
      else "helv"

/-- Modelled from the spec (claim C7's wording): a classifier that uses
exactly the three claimed keyword tables, with no additional keywords.
This is the comparison definition for the refinement question of C7; the
source's tables additionally contain "sans", "serif", "monospace" and
"mono". -/
def classifySpecTables (font_name : String) : String :=
  let font_lower := pyLower font_name
  let sans_serif := ["arial", "helvetica", "calibri", "verdana", "tahoma",
                     "segoe", "gill"]
  if sans_serif.any (fun s => strContains font_lower s) then "helv"
  else
    let serif := ["times", "georgia", "garamond", "palatino", "baskerville",
                  "cambria"]
    if serif.any (fun s => strContains font_lower s) then "tiro"
    else
      let monospace := ["courier", "consolas", "monaco"]
      if monospace.any (fun s => strContains font_lower s) then "cour"
      else "helv"

/-- The font keyword tables of the source, paired with the builtin font
each table selects, in the order the source checks them. -/
def fontTables : List (List String × String) :=
  [ (["arial", "helvetica", "calibri", "verdana", "tahoma", "segoe", "sans", "gill"], "helv"),
    (["times", "georgia", "garamond", "palatino", "baskerville", "cambria", "serif"], "tiro"),
    (["courier", "consolas", "monaco", "monospace", "mono"], "cour") ]

/-- First-match semantics over an ordered list of keyword tables: the
first table holding a substring of the lower-cased name wins, and the
default is the sans font. -/
def classifyFirstMatch (font_name : String) : String :=
  let font_lower := pyLower font_name
  match fontTables.find? (fun t => t.1.any (fun s => strContains font_lower s)) with
  | some t => t.2
  | none => "helv"

/-! ## Styles (`AnonymizerService._extract_text_with_style`) -/

/-- The style dictionary returned by `_extract_text_with_style`. -/
structure TextStyle where
  font_name : String
  font_size : Rat
  color : Int
  flags : Int
deriving Repr, DecidableEq

/-- A span of the structured page layout returned by
`page.get_text("dict", flags=11)`, with its font attributes. -/
structure SpanInfo where
  bbox : Rect
  font : String
  size : Rat
  color : Int
  flags : Int
deriving Repr, DecidableEq

/-- A line of the structured page layout. -/
structure LineInfo where
  bbox : Rect
  spans : List SpanInfo
deriving Repr, DecidableEq

/-- A block of the structured page layout; `ty = 0` marks a text block. -/
structure BlockInfo where
  ty : Nat
  lines : List LineInfo
deriving Repr, DecidableEq

/-- Helper for `_extract_text_with_style`: scan the spans of one line and
return the attributes of the first span whose rectangle intersects `rect`. -/
def firstSpanStyle (rect : Rect) : List SpanInfo → Option TextStyle
  | [] => none
  | sp :: rest =>
      if rectIntersects rect sp.bbox then
        some { font_name := sp.font, font_size := sp.size,
               color := sp.color, flags := sp.flags }
      else firstSpanStyle rect rest

/-- Helper: scan the lines of one block, first intersecting span of an
intersecting line wins. -/
def firstLineStyle (rect : Rect) : List LineInfo → Option TextStyle
  | [] => none
  | ln :: rest =>
      if rectIntersects rect ln.bbox then
        match firstSpanStyle rect ln.spans with
        | some st => some st
        | none => firstLineStyle rect rest
      else firstLineStyle rect rest

/-- Helper: scan the text blocks of the page in order. -/
def firstBlockStyle (rect : Rect) : List BlockInfo → Option TextStyle
  | [] => none
  | bl :: rest =>
      if bl.ty = 0 then
        match firstLineStyle rect bl.lines with
        | some st => some st
        | none => firstBlockStyle rect rest
      else firstBlockStyle rect rest

/-- Embeds `_extract_text_with_style`: return the attributes of the first
span of the structured layout intersecting the bbox, and otherwise the
fallback style helv / 0.75 of the bbox height / black / flags 0. -/
def extract_text_with_style (blocks : List BlockInfo) (bbox : BBox) : TextStyle :=
  let rect := bboxToRect bbox
  match firstBlockStyle rect blocks with
  | some st => st
  | none =>
      { font_name := "helv", font_size := bbox.height * (75 / 100),
        color := 0, flags := 0 }

/-! ## Detection pipeline (`AnonymizerService.detect_pii_with_coordinates`) -/

/-- A PIIDetection record. The uuid of the source is modelled as a
natural number drawn from a counter threaded through the pipeline. -/
structure Detection where
  id : Nat
  ty : String
  text : String
  page : Nat
  bbox : BBox
  confidence : Rat
  style : TextStyle
deriving Repr, DecidableEq

/-- A page as the detection pipeline sees it.  The three PyMuPDF calls
the pipeline makes on a page are carried as oracle functions:
`textOf` models `page.get_text()`, `finditer` models
`re.finditer(pattern, text, re.IGNORECASE)` listing the matched
substrings in order, `search_for` models the plain `page.search_for(s)`
call (per the source's comments a verbatim, exact search) and
`search_for_ws` models `page.search_for(s, flags=fitz.TEXT_PRESERVE_WHITESPACE)`
(per the source's comments the case-insensitive fallback search).
`blocks` models the structured layout `page.get_text("dict", flags=11)`. -/
structure DetPage where
  textOf : String
  finditer : String → List String
  search_for : String → List Rect
  search_for_ws : String → List Rect
  blocks : List BlockInfo

/-- Emission of one detection per rectangle, assigning consecutive ids
from the counter `n`; shared by `_find_pattern_coords` and
`_find_text_coords`, whose per-rectangle loop bodies are identical. -/
def emitRects (pg : DetPage) (txt ty : String) (page_num : Nat) (conf : Rat) :
    List Rect → Nat → List Detection × Nat
  | [], n => ([], n)
  | r :: rs, n =>
      let bbox := rectToBBox r
      let style := extract_text_with_style pg.blocks bbox
      let d : Detection :=
        { id := n, ty := ty, text := txt, page := page_num,
          bbox := bbox, confidence := conf, style := style }
      let rest := emitRects pg txt ty page_num conf rs (n + 1)
      (d :: rest.1, rest.2)

/-- Embeds `_find_pattern_coords`'s outer loop: for each regex match,
search the page for the matched text and emit one detection per returned
rectangle, confidence 1. -/
def emitMatches (pg : DetPage) (ty : String) (page_num : Nat) :
    List String → Nat → List Detection × Nat
  | [], n => ([], n)
  | m :: ms, n =>
      let here := emitRects pg m ty page_num 1 (pg.search_for m) n
      let rest := emitMatches pg ty page_num ms here.2
      (here.1 ++ rest.1, rest.2)

/-- Embeds `_find_pattern_coords`. -/
def find_pattern_coords (pg : DetPage) (pat ty : String) (page_num : Nat)
    (n : Nat) : List Detection × Nat :=
  emitMatches pg ty page_num (pg.finditer pat) n

/-- Embeds `_find_text_coords`: try the plain search first and use the
flagged search only when the plain search returned nothing. -/
def find_text_coords (pg : DetPage) (txt ty : String) (page_num : Nat)
    (conf : Rat) (n : Nat) : List Detection × Nat :=
  let text_instances := pg.search_for txt
  let text_instances :=
    if text_instances.isEmpty then pg.search_for_ws txt else text_instances
  emitRects pg txt ty page_num conf text_instances n

/-- The email pattern of `_detect_pii_regex`. -/
def emailPat : String := "\\b[A-Za-z0-9._%+-]+@[A-Za-z0-9.-]+\\.[A-Z|a-z]\x7b2,\x7d\\b"

/-- The three phone patterns of `_detect_pii_regex`. -/
def phonePats : List String :=
  [ "\\b\\d\x7b3\x7d[-.\\s]?\\d\x7b3\x7d[-.\\s]?\\d\x7b4\x7d\\b",
    "\\(\\d\x7b3\x7d\\)\\s?\\d\x7b3\x7d[-.\\s]?\\d\x7b4\x7d\\b",
    "\\+\\d\x7b1,3\x7d\\s?\\d\x7b3\x7d[-.\\s]?\\d\x7b3\x7d[-.\\s]?\\d\x7b4\x7d\\b" ]

/-- The LinkedIn pattern of `_detect_pii_regex`. -/
def linkedinPat : String := "linkedin\\.com/in/[\\w-]+"

/-- The GitHub pattern of `_detect_pii_regex`. -/
def githubPat : String := "github\\.com/[\\w-]+"

/-- The website pattern of `_detect_pii_regex`. -/
def websitePat : String := "https?://(?!.*(?:linkedin|github))[\\w.-]+\\.\\w+[^\\s]*"

/-- Embeds `_detect_pii_regex`: the fixed battery of patterns in source
order, all emitted through `_find_pattern_coords`; the loop over the
static three-element phone pattern list is unrolled. -/
def detect_pii_regex (pg : DetPage) (page_num : Nat) (n : Nat) :
    List Detection × Nat :=
  let em := find_pattern_coords pg emailPat "email" page_num n
  let p1 := find_pattern_coords pg (phonePats.get ⟨0, by simp [phonePats]⟩) "phone" page_num em.2
  let p2 := find_pattern_coords pg (phonePats.get ⟨1, by simp [phonePats]⟩) "phone" page_num p1.2
  let p3 := find_pattern_coords pg (phonePats.get ⟨2, by simp [phonePats]⟩) "phone" page_num p2.2
  let li := find_pattern_coords pg linkedinPat "linkedin" page_num p3.2
  let gh := find_pattern_coords pg githubPat "github" page_num li.2
  let ws := find_pattern_coords pg websitePat "website" page_num gh.2
  (em.1 ++ p1.1 ++ p2.1 ++ p3.1 ++ li.1 ++ gh.1 ++ ws.1, ws.2)

/-- The parsed response of the entity-extraction collaborator; a missing
category key is already resolved to the empty list (`data.get(k, [])`). -/
structure Entities where
  names : List String
  companies : List String
  schools : List String
  addresses : List String
deriving Repr, DecidableEq

/-- One category loop of `_detect_pii_ai`: each entity string of the
category is resolved through `_find_text_coords` with the category's
confidence constant.  In `detect_pii_ai`, `llm` models the external call
chain (chat-completion request plus `json.loads`); the whole body of the
source sits inside a try/except returning `[]`, so a collaborator failure
is an `Except.error` yielding no detections. -/
def emitCategory (pg : DetPage) (ty : String) (page_num : Nat) (conf : Rat) :
    List String → List Detection × Nat → List Detection × Nat
  | [], acc => acc
  | s :: ss, acc =>
      let here := find_text_coords pg s ty page_num conf acc.2
      emitCategory pg ty page_num conf ss (acc.1 ++ here.1, here.2)

/-- Embeds `_detect_pii_ai`: on a successful collaborator response, emit
the four categories through `_find_text_coords` with their fixed
confidence constants, in source order. -/
def detect_pii_ai (llm : String → Except String Entities) (pg : DetPage)
    (page_text : String) (page_num : Nat) (n : Nat) : List Detection × Nat :=
  match llm page_text with
  | .error _ => ([], n)
  | .ok data =>
      let nm := emitCategory pg "name" page_num (9 / 10) data.names ([], n)
      let co := emitCategory pg "company" page_num (85 / 100) data.companies nm
      let sc := emitCategory pg "school" page_num (85 / 100) data.schools co
      let ad := emitCategory pg "address" page_num (8 / 10) data.addresses sc
      ad

/-- Result shape of `detect_pii_with_coordinates`. -/
structure DetectResult where
  success : Bool
  detections : List Detection
  total_pages : Nat
  error : Option String
deriving Repr, DecidableEq

/-- The page loop of `detect_pii_with_coordinates`: regex detections then
AI detections of each page, in page order. -/
def detectPages (llm : String → Except String Entities) :
    List DetPage → Nat → Nat → List Detection × Nat
  | [], _, n => ([], n)
  | pg :: rest, page_num, n =>
      let rx := detect_pii_regex pg page_num n
      let ai := detect_pii_ai llm pg pg.textOf page_num rx.2
      let tl := detectPages llm rest (page_num + 1) ai.2
      (rx.1 ++ ai.1 ++ tl.1, tl.2)

/-- Embeds `detect_pii_with_coordinates`.  The argument `opened` models
`fitz.open(pdf_path)`: an `Except.error` is the raising open call caught
by the outer try/except. -/
def detect_pii_with_coordinates (llm : String → Except String Entities)
    (opened : Except String (List DetPage)) : DetectResult :=
  match opened with
  | .error e => { success := false, detections := [], total_pages := 0, error := some e }
  | .ok doc =>
      let ds := detectPages llm doc 0 0
      { success := true, detections := ds.1, total_pages := doc.length, error := none }

/-- The regex-sourced detections of a document alone: the page loop with
the AI stage contributing nothing.  Used to state that a failing
collaborator leaves the regex detections unchanged. -/
def regexOnlyPages : List DetPage → Nat → Nat → List Detection × Nat
  | [], _, n => ([], n)
  | pg :: rest, page_num, n =>
      let rx := detect_pii_regex pg page_num n
      let tl := regexOnlyPages rest (page_num + 1) rx.2
      (rx.1 ++ tl.1, tl.2)

/-! ## Redaction / replacement engine (`AnonymizerService.generate_anonymized_pdf`) -/

/-- A text span of a page's content stream: what redaction removes and
text extraction reads. -/
structure Span where
  text : String
  rect : Rect
deriving Repr, DecidableEq

/-- Drawing operations recorded on a page by the engine and the burner. -/
inductive DrawOp where
  | drawRect (r : Rect) (stroke : Option (Rat × Rat × Rat))
      (fill : Option (Rat × Rat × Rat)) (lineWidth : Rat)
  | textbox (r : Rect) (s : String) (size : Rat) (font : String)
      (col : Rat × Rat × Rat)
  | textAt (p : Point) (s : String) (size : Rat) (font : String)
      (col : Rat × Rat × Rat)
  | highlightAnnot (r : Rect) (stroke : Rat × Rat × Rat)
  | redactFill (r : Rect) (fill : Rat × Rat × Rat)
deriving Repr, DecidableEq

/-- A page of the mutable in-memory document: dimensions, text spans of
the content stream, and the drawing operations applied so far. -/
structure RPage where
  width : Rat
  height : Rat
  spans : List Span
  ops : List DrawOp
deriving Repr, DecidableEq

/-- Oracles for the PyMuPDF calls whose outcome depends on glyph metrics
the embedding does not compute: `textboxResult` models the return value of
`page.insert_textbox` (positive iff the text was written), `insertTextOk`
models whether `page.insert_text` succeeds (false = the call raises), and
`textLength` models `fitz.get_text_length`. -/
structure PdfLib where
  textboxResult : Rect → String → Rat → String → Rat
  insertTextOk : Point → String → Bool
  textLength : String → String → Rat → Rat

/-- The style dictionary of a ReplacementItem; every key may be absent
(`style.get(key, default)` in the source). -/
structure StyleDict where
  font_name : Option String
  font_size : Option Rat
  color : Option Int
  flags : Option Int
deriving Repr, DecidableEq

/-- A ReplacementItem record. -/
structure ReplacementItem where
  page : Int
  bbox : BBox
  original_text : String
  replacement_text : String
  ty : String
  style : StyleDict
deriving Repr, DecidableEq

/-- Embeds `_estimate_font_size`: 75% of the box height, clamped to
the interval from 6.0 to 18.0 points. -/
def estimate_font_size (rect : Rect) : Rat :=
  let font_size := rect.heightOf * (75 / 100)
  max 6 (min font_size 18)

/-- Embeds line 411 of the engine,
`style.get("font_size", self._estimate_font_size(rect))`: the style's
font size verbatim when present, the clamped estimate otherwise. -/
def resolveFontSize (style : StyleDict) (rect : Rect) : Rat :=
  match style.font_size with
  | some s => s
  | none => estimate_font_size rect

/-- One byte of a packed integer color, Python `(c >> sh) & 0xFF` with
floor shift and nonnegative masking. -/
def colorByte (c : Int) (sh : Nat) : Int :=
  (Int.fdiv c ((2 : Int) ^ sh)) % 256

/-- Embeds the packed-int to normalized RGB conversion of the engine. -/
def colorToRGB (c : Int) : Rat × Rat × Rat :=
  ((colorByte c 16 : Rat) / 255, (colorByte c 8 : Rat) / 255,
   (colorByte c 0 : Rat) / 255)

/-- Negative page indices count from the end of the document
(PyMuPDF `Document.load_page`). -/
def effIdx (n : Nat) (i : Int) : Int :=
  if i < 0 then i + n else i

/-- Is `i` a valid page index for a document of `n` pages, after the
negative-index adjustment? -/
def validPageIdx (n : Nat) (i : Int) : Bool :=
  0 ≤ effIdx n i && effIdx n i < n

/-- The styled-reinsertion branch of the replacement loop (nonempty
stripped replacement text): paint a white rectangle over the region,
resolve color, font size and builtin font, attempt the textbox layout,
and on a nonpositive layout result fall back to point-anchored text,
swallowing a failing `insert_text` silently. -/
def styledPage (lib : PdfLib) (page : RPage) (rect : Rect)
    (replacement_text : String) (style : StyleDict) : RPage :=
  let page := { page with
    ops := page.ops ++ [.drawRect rect (some (1, 1, 1)) (some (1, 1, 1)) 1] }
  let color_rgb := colorToRGB (style.color.getD 0)
  let font_size := resolveFontSize style rect
  let original_font := pyLower (style.font_name.getD "helv")
  let font_name := map_to_builtin_font original_font
  let res := lib.textboxResult rect replacement_text font_size font_name
  if res > 0 then
    { page with ops := page.ops ++
      [.textbox rect replacement_text font_size font_name color_rgb] }
  else
    let text_point : Point := ⟨rect.x0, rect.y0 + rect.heightOf * (75 / 100)⟩
    if lib.insertTextOk text_point replacement_text then
      { page with ops := page.ops ++
        [.textAt text_point replacement_text font_size font_name color_rgb] }
    else page

/-- The hard-redaction branch of the replacement loop (empty stripped
replacement text): a black-filled redaction annotation over the region is
applied at once, removing every text span intersecting it. -/
def redactedPage (page : RPage) (rect : Rect) : RPage :=
  { page with
    spans := page.spans.filter (fun sp => !(rectIntersects sp.rect rect)),
    ops := page.ops ++ [.redactFill rect (0, 0, 0)] }

/-- The branch dispatch of the replacement loop body, on one page. -/
def replacedPage (lib : PdfLib) (page : RPage) (rep : ReplacementItem) : RPage :=
  let rect := bboxToRect rep.bbox
  let replacement_text := pyStrip rep.replacement_text
  if replacement_text ≠ "" then styledPage lib page rect replacement_text rep.style
  else redactedPage page rect

/-- Embeds one iteration of the replacement loop of
`generate_anonymized_pdf`.  An invalid page index is the raising
`doc[page_num]` lookup, surfaced as `Except.error`. -/
def applyReplacement (lib : PdfLib) (doc : List RPage) (rep : ReplacementItem) :
    Except String (List RPage) :=
  let idx := effIdx doc.length rep.page
  if 0 ≤ idx ∧ idx < (doc.length : Int) then
    match doc[idx.toNat]? with
    | none => .error "page not in document"
    | some page => .ok (doc.set idx.toNat (replacedPage lib page rep))
  else .error "page not in document"

/-- The replacement loop: the first raising item aborts the whole loop
(the source has no per-item exception handler around the loop body). -/
def applyAll (lib : PdfLib) : List RPage → List ReplacementItem →
    Except String (List RPage)
  | doc, [] => .ok doc
  | doc, rep :: rest =>
      match applyReplacement lib doc rep with
      | .error e => .error e
      | .ok doc2 => applyAll lib doc2 rest

/-- Result shape of the engine and of the burner: the saved PDF is
modelled by the final page list. -/
structure GenResult where
  success : Bool
  pages : List RPage
  error : Option String
deriving Repr, DecidableEq

/-- Embeds `generate_anonymized_pdf`.  `opened` models
`fitz.open(stream=pdf_bytes)`; any exception inside the try block yields
the structured failure dictionary. -/
def generate_anonymized_pdf (lib : PdfLib) (opened : Except String (List RPage))
    (replacements : List ReplacementItem) : GenResult :=
  match opened with
  | .error e => { success := false, pages := [], error := some e }
  | .ok doc =>
      match applyAll lib doc replacements with
      | .error e => { success := false, pages := [], error := some e }
      | .ok doc2 => { success := true, pages := doc2, error := none }

/-- Text extraction over a region: concatenation of the spans whose
rectangle intersects it. -/
def extractTextIn (pg : RPage) (r : Rect) : String :=
  String.join ((pg.spans.filter (fun sp => rectIntersects sp.rect r)).map (fun sp => sp.text))

/-- The font size of a text-drawing operation, if it is one. -/
def opFontSize : DrawOp → Option Rat
  | .textbox _ _ size _ _ => some size
  | .textAt _ _ size _ _ => some size
  | _ => none

/-- All font sizes used by text-drawing operations across a page list. -/
def usedFontSizes (pages : List RPage) : List Rat :=
  (pages.map (fun pg => pg.ops.filterMap opFontSize)).flatten

/-! ## Annotation burner (`PDFService.generate_annotated_pdf`) -/

/-- The position dictionary of an annotation record; every key may be
absent (`pos.get(k, 0)` in the source). -/
structure PosDict where
  x : Option Rat
  y : Option Rat
  width : Option Rat
  height : Option Rat
deriving Repr, DecidableEq

/-- The content dictionary of an annotation record. -/
structure ContentDict where
  selectedText : Option String
  comment : Option String
deriving Repr, DecidableEq

/-- An annotation record as consumed by the burner; every key may be
absent, with the defaults the source supplies on `get`. -/
structure AnnotRec where
  page_number : Option Int
  position : Option PosDict
  content : Option ContentDict
  annotType : Option String
deriving Repr, DecidableEq

/-- Embeds the per-annotation body of the burner loop, after the page
lookup: rectangle validation, type-directed drawing, and the optional
comment callout. -/
def burnOne (lib : PdfLib) (pg : RPage) (a : AnnotRec) : RPage :=
  let pos := a.position.getD ⟨none, none, none, none⟩
  let content := a.content.getD ⟨none, none⟩
  let annot_type := a.annotType.getD "highlight"
  let x := pos.x.getD 0
  let y := pos.y.getD 0
  let rect : Rect := ⟨x, y, x + pos.width.getD 0, y + pos.height.getD 0⟩
  if rect.x1 ≤ rect.x0 ∨ rect.y1 ≤ rect.y0 then pg
  else
    let pg1 :=
      if annot_type = "highlight" then
        { pg with ops := pg.ops ++ [.highlightAnnot rect (1, 1, 0)] }
      else if annot_type = "area" then
        { pg with ops := pg.ops ++ [.drawRect rect (some (1, 0, 0)) none 2] }
      else if annot_type = "drawing" then
        { pg with ops := pg.ops ++ [.drawRect rect (some (1, 0, 0)) none 2] }
      else pg
    let comment := pyStrip (content.comment.getD "")
    if comment ≠ "" then
      let comment_rect : Rect := ⟨rect.x0, rect.y0 - 30, rect.x0 + 400, rect.y0 - 5⟩
      let pg2 := { pg1 with ops := pg1.ops ++
        [.drawRect comment_rect (some (1, 1, 8/10)) (some (1, 1, 8/10)) (1/2)] }
      let ctext := "💬 " ++ comment
      if lib.textboxResult comment_rect ctext 9 "helv" > 0 then
        { pg2 with ops := pg2.ops ++ [.textbox comment_rect ctext 9 "helv" (0, 0, 0)] }
      else pg2
    else pg1

/-- Embeds one iteration of the burner's annotation loop: annotations
with an out-of-range page number are skipped (`continue`). -/
def applyAnnot (lib : PdfLib) (doc : List RPage) (a : AnnotRec) : List RPage :=
  let page_num := a.page_number.getD 0
  if page_num < 0 ∨ (doc.length : Int) ≤ page_num then doc
  else
    match doc[page_num.toNat]? with
    | none => doc
    | some pg => doc.set page_num.toNat (burnOne lib pg a)

/-- The watermark stamp of `_add_watermark` for one page: the watermark
text in bold Helvetica at size 10, light gray, horizontally centered,
20 points above the bottom edge. -/
def watermarkOp (lib : PdfLib) (watermark_text : String) (pg : RPage) : DrawOp :=
  let text_width := lib.textLength watermark_text "hebo" 10
  .textAt ⟨(pg.width - text_width) / 2, pg.height - 20⟩ watermark_text 10 "hebo"
    (7/10, 7/10, 7/10)

/-- Embeds `_add_watermark`: stamp every page of the document. -/
def add_watermark (lib : PdfLib) (doc : List RPage) (watermark_text : String) :
    List RPage :=
  doc.map (fun pg => { pg with ops := pg.ops ++ [watermarkOp lib watermark_text pg] })

/-- Embeds `generate_annotated_pdf`: apply every annotation in order,
then stamp the watermark on every page. -/
def generate_annotated_pdf (lib : PdfLib) (opened : Except String (List RPage))
    (annots : List AnnotRec) (watermark_text : String) : GenResult :=
  match opened with
  | .error e => { success := false, pages := [], error := some e }
  | .ok doc =>
      let doc2 := annots.foldl (applyAnnot lib) doc
      let doc3 := add_watermark lib doc2 watermark_text
      { success := true, pages := doc3, error := none }

/-! ## Concrete fixtures for closed runs -/

/-- A concrete page: letter-sized, one text span. -/
def pageA : RPage :=
  { width := 612, height := 792,
    spans := [{ text := "jane@example.com", rect := ⟨100, 100, 200, 112⟩ }],
    ops := [] }

/-- A concrete layout oracle: every textbox layout succeeds and every
point insert succeeds. -/
def libA : PdfLib :=
  { textboxResult := fun _ _ _ _ => 1,
    insertTextOk := fun _ _ => true,
    textLength := fun _ _ _ => 100 }

/-- A replacement item whose style carries font size 30. -/
def repFont30 : ReplacementItem :=
  { page := 0, bbox := ⟨100, 100, 100, 12⟩, original_text := "jane@example.com",
    replacement_text := "REDACTED", ty := "email",
    style := { font_name := some "Calibri", font_size := some 30,
               color := some 0, flags := some 0 } }

/-! ## Claim C7: the font classifier -/

/-- Claim C7 is false as stated: the source's keyword tables are not
exactly the three listed ones — they additionally contain "sans",
"serif", "monospace" and "mono".  On the font name "FreeSerif" the
source classifier returns the serif font while a classifier using
exactly the claimed tables returns the sans default. -/
theorem C7_classifier_exact_tables_counterexample :
    map_to_builtin_font "FreeSerif" = "tiro"
    ∧ classifySpecTables "FreeSerif" = "helv" :=
  ⟨by decide, by decide⟩

/-- Claim C7 (amended): the classifier is a total deterministic function
doing case-insensitive substring matching against three keyword tables
checked sans→serif→mono with the first matching table winning and sans
as the default, where the sans table additionally contains "sans", the
serif table additionally contains "serif" and the mono table additionally
contains "monospace" and "mono"; the four example classifications hold. -/
theorem C7_classifier_amended (font_name : String) :
    map_to_builtin_font font_name = classifyFirstMatch font_name
  ∧ map_to_builtin_font "Calibri-Bold" = "helv"
  ∧ map_to_builtin_font "Times New Roman" = "tiro"
  ∧ map_to_builtin_font "Consolas" = "cour"
  ∧ map_to_builtin_font "UnknownFontXYZ" = "helv" := by
  refine ⟨?_, by decide, by decide, by decide, by decide⟩
  unfold map_to_builtin_font classifyFirstMatch fontTables
  cases h1 : ["arial", "helvetica", "calibri", "verdana", "tahoma",
              "segoe", "sans", "gill"].any
      (fun s => strContains (pyLower font_name) s) <;>
  cases h2 : ["times", "georgia", "garamond", "palatino", "baskerville",
              "cambria", "serif"].any
      (fun s => strContains (pyLower font_name) s) <;>
  cases h3 : ["courier", "consolas", "monaco", "monospace", "mono"].any
      (fun s => strContains (pyLower font_name) s) <;>
  simp [List.find?, h1, h2, h3]

/-! ## Claim C1: font size resolution -/

/-- Claim C1 is false as stated: a ReplacementItem with nonempty stripped
replacement text whose style carries font_size 30 is rendered at size 30,
outside the interval from 6.0 to 18.0 — the clamp is applied only inside
the height-derived fallback estimate, never to a provided style size. -/
theorem C1_fontsize_counterexample :
    usedFontSizes (generate_anonymized_pdf libA (.ok [pageA]) [repFont30]).pages = [30]
    ∧ ¬ ((30 : Rat) ≤ 18) :=
  ⟨by decide, by decide⟩

/-- Claim C1 (amended): the rendering font size is `style.font_size`
taken verbatim (unclamped) when present; only when it is unset is the
height-derived estimate used, and that estimate alone is clamped to the
interval from 6.0 to 18.0 points. -/
theorem C1_fontsize_resolution (style : StyleDict) (rect : Rect) :
    (∀ s, style.font_size = some s → resolveFontSize style rect = s)
  ∧ (style.font_size = none →
      resolveFontSize style rect = estimate_font_size rect
      ∧ 6 ≤ resolveFontSize style rect ∧ resolveFontSize style rect ≤ 18) := by
  constructor
  · intro s hs
    simp [resolveFontSize, hs]
  · intro h
    refine ⟨by simp [resolveFontSize, h], ?_, ?_⟩
    · simp only [resolveFontSize, h, estimate_font_size]
      exact le_max_left _ _
    · simp only [resolveFontSize, h, estimate_font_size]
      exact max_le (by norm_num) (min_le_right _ _)

/-- Witness for C1 (amended), at a style without a font size and a box of
height 12. -/
theorem C1_fontsize_resolution_witness :
    (({ font_name := none, font_size := none, color := none,
        flags := none } : StyleDict).font_size = none)
    ∧ (resolveFontSize ⟨none, none, none, none⟩ ⟨100, 100, 200, 112⟩
         = estimate_font_size ⟨100, 100, 200, 112⟩
       ∧ 6 ≤ resolveFontSize ⟨none, none, none, none⟩ ⟨100, 100, 200, 112⟩
       ∧ resolveFontSize ⟨none, none, none, none⟩ ⟨100, 100, 200, 112⟩ ≤ 18) :=
  ⟨rfl, (C1_fontsize_resolution ⟨none, none, none, none⟩ ⟨100, 100, 200, 112⟩).2 rfl⟩

/-! ## Claim C2: search order in entity coordinate resolution -/

/-- Claim C2: `_find_text_coords` uses the plain verbatim search first,
falls back to the flagged search (per the source, the case-insensitive
one) exactly when the plain search found nothing, and returns an empty
detection list when both searches find nothing on the page. -/
theorem C2_find_text_search_order (pg : DetPage) (txt ty : String)
    (page_num : Nat) (conf : Rat) (n : Nat) :
    (pg.search_for txt ≠ [] →
       find_text_coords pg txt ty page_num conf n
         = emitRects pg txt ty page_num conf (pg.search_for txt) n)
  ∧ (pg.search_for txt = [] →
       find_text_coords pg txt ty page_num conf n
         = emitRects pg txt ty page_num conf (pg.search_for_ws txt) n)
  ∧ (pg.search_for txt = [] → pg.search_for_ws txt = [] →
       (find_text_coords pg txt ty page_num conf n).1 = []) := by
  refine ⟨?_, ?_, ?_⟩
  · intro h
    simp only [find_text_coords]
    rw [if_neg (by simpa [List.isEmpty_iff] using h)]
  · intro h
    simp [find_text_coords, h]
  · intro h1 h2
    simp [find_text_coords, h1, h2, emitRects]

/-- A page on which no search finds anything. -/
def detPageEmpty : DetPage :=
  { textOf := "", finditer := fun _ => [], search_for := fun _ => [],
    search_for_ws := fun _ => [], blocks := [] }

/-- Witness for C2, at a page where both searches come back empty. -/
theorem C2_find_text_search_order_witness :
    detPageEmpty.search_for "Jane Doe" = []
  ∧ detPageEmpty.search_for_ws "Jane Doe" = []
  ∧ (find_text_coords detPageEmpty "Jane Doe" "name" 0 (9 / 10) 0).1 = [] :=
  ⟨rfl, rfl,
   (C2_find_text_search_order detPageEmpty "Jane Doe" "name" 0 (9 / 10) 0).2.2 rfl rfl⟩

/-! ## Claim C4: collaborator failure degrades to no AI detections -/

/-- Helper: with a collaborator that always fails, the page loop produces
exactly the regex-only detections. -/
theorem detectPages_of_llm_error {llm : String → Except String Entities}
    {e : String} (hfail : ∀ t, llm t = .error e) :
    ∀ (pages : List DetPage) (page_num n : Nat),
      detectPages llm pages page_num n = regexOnlyPages pages page_num n := by
  intro pages
  induction pages with
  | nil => intro page_num n; rfl
  | cons pg rest ih =>
      intro page_num n
      simp [detectPages, regexOnlyPages, detect_pii_ai, hfail, ih]

/-- Claim C4: when every external entity-extraction call raises, the AI
detection step yields no detections for any page, the overall detection
operation still succeeds, and the detections are exactly the
regex-sourced ones. -/
theorem C4_collaborator_failure (llm : String → Except String Entities)
    (doc : List DetPage) (e : String) (hfail : ∀ t, llm t = .error e) :
    (detect_pii_with_coordinates llm (.ok doc)).success = true
  ∧ (detect_pii_with_coordinates llm (.ok doc)).detections
      = (regexOnlyPages doc 0 0).1
  ∧ ∀ (pg : DetPage) (page_text : String) (page_num n : Nat),
      detect_pii_ai llm pg page_text page_num n = ([], n) := by
  refine ⟨rfl, ?_, ?_⟩
  · simp [detect_pii_with_coordinates, detectPages_of_llm_error hfail]
  · intro pg page_text page_num n
    simp [detect_pii_ai, hfail]

/-- A collaborator that always fails. -/
def llmFail : String → Except String Entities :=
  fun _ => .error "network failure"

/-- A page with one regex match resolving to one rectangle. -/
def detPageB : DetPage :=
  { textOf := "Contact: jane@example.com",
    finditer := fun pat => if pat = emailPat then ["jane@example.com"] else [],
    search_for := fun s => if s = "jane@example.com" then [⟨72, 72, 180, 84⟩] else [],
    search_for_ws := fun _ => [],
    blocks := [] }

/-- Witness for C4, at a failing collaborator over a one-page document. -/
theorem C4_collaborator_failure_witness :
    (detect_pii_with_coordinates llmFail (.ok [detPageB])).success = true
  ∧ (detect_pii_with_coordinates llmFail (.ok [detPageB])).detections
      = (regexOnlyPages [detPageB] 0 0).1 :=
  ⟨(C4_collaborator_failure llmFail [detPageB] "network failure" (fun _ => rfl)).1,
   (C4_collaborator_failure llmFail [detPageB] "network failure" (fun _ => rfl)).2.1⟩

/-! ## Claims C3 and C5: the replacement loop -/

/-- Helper: a successful replacement application preserves the page count. -/
theorem applyReplacement_length {lib : PdfLib} {doc doc2 : List RPage}
    {rep : ReplacementItem} (h : applyReplacement lib doc rep = .ok doc2) :
    doc2.length = doc.length := by
  simp only [applyReplacement] at h
  split at h
  · split at h
    · cases h
    · cases h
      simp
  · cases h

/-- Helper: with a valid page index, one replacement rewrites exactly the
addressed page through `replacedPage`. -/
theorem applyReplacement_eq_of_valid {lib : PdfLib} {doc : List RPage}
    {rep : ReplacementItem} {page : RPage}
    (hvalid : validPageIdx doc.length rep.page = true)
    (hpage : doc[(effIdx doc.length rep.page).toNat]? = some page) :
    applyReplacement lib doc rep
      = .ok (doc.set (effIdx doc.length rep.page).toNat (replacedPage lib page rep)) := by
  have h' : 0 ≤ effIdx doc.length rep.page
      ∧ effIdx doc.length rep.page < (doc.length : Int) := by
    simpa [validPageIdx] using hvalid
  simp only [applyReplacement]
  rw [if_pos h', hpage]

/-- Helper: with an invalid page index the raising page lookup surfaces
as the operation-level error. -/
theorem applyReplacement_error_of_invalid {lib : PdfLib} {doc : List RPage}
    {rep : ReplacementItem} (h : validPageIdx doc.length rep.page = false) :
    applyReplacement lib doc rep = .error "page not in document" := by
  have h' : ¬(0 ≤ effIdx doc.length rep.page
      ∧ effIdx doc.length rep.page < (doc.length : Int)) := by
    intro hc
    simp [validPageIdx, hc.1, hc.2] at h
  simp only [applyReplacement]
  rw [if_neg h']

/-- Helper: with a valid page index the replacement succeeds and
preserves the page count. -/
theorem applyReplacement_isOk_of_valid {lib : PdfLib} {doc : List RPage}
    {rep : ReplacementItem} (h : validPageIdx doc.length rep.page = true) :
    ∃ doc2, applyReplacement lib doc rep = .ok doc2 ∧ doc2.length = doc.length := by
  have h' : 0 ≤ effIdx doc.length rep.page
      ∧ effIdx doc.length rep.page < (doc.length : Int) := by
    simpa [validPageIdx] using h
  have hlt : (effIdx doc.length rep.page).toNat < doc.length := by omega
  refine ⟨_, applyReplacement_eq_of_valid h (List.getElem?_eq_getElem hlt), by simp⟩

/-- Helper: the loop succeeds when every item addresses a valid page. -/
theorem applyAll_isOk_of_valid {lib : PdfLib} :
    ∀ (reps : List ReplacementItem) (doc : List RPage),
      (∀ rep ∈ reps, validPageIdx doc.length rep.page = true) →
      ∃ doc2, applyAll lib doc reps = .ok doc2 := by
  intro reps
  induction reps with
  | nil => exact fun doc _ => ⟨doc, rfl⟩
  | cons rep rest ih =>
      intro doc hall
      obtain ⟨doc2, hok, hlen⟩ := @applyReplacement_isOk_of_valid lib doc rep (hall rep (by simp))
      obtain ⟨doc3, hok3⟩ := ih doc2 (fun r hr => by rw [hlen]; exact hall r (by simp [hr]))
      exact ⟨doc3, by simp [applyAll, hok, hok3]⟩

/-- Helper: one item with an invalid page index aborts the whole loop. -/
theorem applyAll_error_of_invalid {lib : PdfLib} :
    ∀ (reps : List ReplacementItem) (doc : List RPage) (rep : ReplacementItem),
      rep ∈ reps → validPageIdx doc.length rep.page = false →
      ∃ e, applyAll lib doc reps = .error e := by
  intro reps
  induction reps with
  | nil => intro doc rep h; cases h
  | cons r rest ih =>
      intro doc rep hmem hinv
      rcases List.mem_cons.mp hmem with heq | hmem'
      · subst heq
        exact ⟨"page not in document",
          by simp [applyAll, @applyReplacement_error_of_invalid lib doc rep hinv]⟩
      · cases hr : applyReplacement lib doc r with
        | error e => exact ⟨e, by simp [applyAll, hr]⟩
        | ok doc2 =>
            have hlen := applyReplacement_length hr
            obtain ⟨e, he⟩ := ih doc2 rep hmem' (by rw [hlen]; exact hinv)
            exact ⟨e, by simp [applyAll, hr, he]⟩

/-- Claim C3 is false as stated: an invalid page index on the first item
aborts the whole request — the valid hard-redaction item after it is not
applied, and instead of a mutated PDF the operation returns the
structured failure. -/
theorem C3_counterexample :
    generate_anonymized_pdf libA
        (.ok [pageA])
        [ { page := 5, bbox := ⟨0, 0, 10, 10⟩, original_text := "x",
            replacement_text := "", ty := "email",
            style := ⟨none, none, none, none⟩ },
          { page := 0, bbox := ⟨100, 100, 100, 12⟩,
            original_text := "jane@example.com", replacement_text := "",
            ty := "email", style := ⟨none, none, none, none⟩ } ]
      = { success := false, pages := [], error := some "page not in document" } := by
  decide

/-- Claim C3 (amended): a failure of the final point-placement fallback
is swallowed per item — with every page index valid the operation always
succeeds, whatever the layout oracles do — but a failure raised while
applying one item, such as an invalid page index, aborts the remaining
items and the operation returns a structured failure with no PDF. -/
theorem C3_per_item_isolation (lib : PdfLib) (doc : List RPage)
    (reps : List ReplacementItem) :
    ((∀ rep ∈ reps, validPageIdx doc.length rep.page = true) →
       (generate_anonymized_pdf lib (.ok doc) reps).success = true)
  ∧ (∀ rep ∈ reps, validPageIdx doc.length rep.page = false →
       (generate_anonymized_pdf lib (.ok doc) reps).success = false
       ∧ (generate_anonymized_pdf lib (.ok doc) reps).pages = []) := by
  constructor
  · intro hall
    obtain ⟨doc2, hok⟩ := @applyAll_isOk_of_valid lib reps doc hall
    simp [generate_anonymized_pdf, hok]
  · intro rep hmem hinv
    obtain ⟨e, he⟩ := @applyAll_error_of_invalid lib reps doc rep hmem hinv
    constructor <;> simp [generate_anonymized_pdf, he]

/-- A hard-redaction item covering pageA's only text span. -/
def repRedact : ReplacementItem :=
  { page := 0, bbox := ⟨100, 100, 100, 12⟩,
    original_text := "jane@example.com", replacement_text := "",
    ty := "email", style := ⟨none, none, none, none⟩ }

/-- Witness for C3 (amended): the invalid item page index 5 fails the
whole two-item request, while the request holding only the valid item
succeeds. -/
theorem C3_per_item_isolation_witness :
    ((generate_anonymized_pdf libA (.ok [pageA])
        [ { page := 5, bbox := ⟨0, 0, 10, 10⟩, original_text := "x",
            replacement_text := "", ty := "email",
            style := ⟨none, none, none, none⟩ }, repRedact ]).success = false
     ∧ (generate_anonymized_pdf libA (.ok [pageA])
        [ { page := 5, bbox := ⟨0, 0, 10, 10⟩, original_text := "x",
            replacement_text := "", ty := "email",
            style := ⟨none, none, none, none⟩ }, repRedact ]).pages = [])
  ∧ (generate_anonymized_pdf libA (.ok [pageA]) [repRedact]).success = true :=
  ⟨(C3_per_item_isolation libA [pageA]
      [ { page := 5, bbox := ⟨0, 0, 10, 10⟩, original_text := "x",
          replacement_text := "", ty := "email",
          style := ⟨none, none, none, none⟩ }, repRedact ]).2
      { page := 5, bbox := ⟨0, 0, 10, 10⟩, original_text := "x",
        replacement_text := "", ty := "email",
        style := ⟨none, none, none, none⟩ }
      (by simp) (by decide),
   (C3_per_item_isolation libA [pageA] [repRedact]).1 (by decide)⟩

/-- Helper: the styled-reinsertion branch never touches the text spans of
the page. -/
theorem styledPage_spans (lib : PdfLib) (page : RPage) (rect : Rect)
    (replacement_text : String) (style : StyleDict) :
    (styledPage lib page rect replacement_text style).spans = page.spans := by
  simp only [styledPage]
  split
  · rfl
  · split <;> rfl

/-- Claim C5: an item enters hard redaction exactly when its
replacement_text is empty after stripping; in that case the page gains
only a black redaction fill over the bbox, the intersecting spans are
removed, and text extraction over the bbox region of the result is the
empty string; with nonempty stripped text the styled branch runs instead
and no text span is removed. -/
theorem C5_hard_redact (lib : PdfLib) (doc : List RPage) (rep : ReplacementItem)
    (page : RPage) (hvalid : validPageIdx doc.length rep.page = true)
    (hpage : doc[(effIdx doc.length rep.page).toNat]? = some page) :
    (pyStrip rep.replacement_text = "" →
       applyReplacement lib doc rep
         = .ok (doc.set (effIdx doc.length rep.page).toNat
                 (redactedPage page (bboxToRect rep.bbox)))
       ∧ (redactedPage page (bboxToRect rep.bbox)).ops
           = page.ops ++ [.redactFill (bboxToRect rep.bbox) (0, 0, 0)]
       ∧ extractTextIn (redactedPage page (bboxToRect rep.bbox)) (bboxToRect rep.bbox) = "")
  ∧ (pyStrip rep.replacement_text ≠ "" →
       applyReplacement lib doc rep
         = .ok (doc.set (effIdx doc.length rep.page).toNat
                 (styledPage lib page (bboxToRect rep.bbox)
                   (pyStrip rep.replacement_text) rep.style))
       ∧ (styledPage lib page (bboxToRect rep.bbox)
            (pyStrip rep.replacement_text) rep.style).spans = page.spans) := by
  constructor
  · intro hempty
    refine ⟨?_, rfl, ?_⟩
    · rw [applyReplacement_eq_of_valid hvalid hpage]
      simp [replacedPage, hempty]
    · simp only [extractTextIn, redactedPage, List.filter_filter]
      have hfalse : ∀ sp : Span,
          (rectIntersects sp.rect (bboxToRect rep.bbox)
            && !rectIntersects sp.rect (bboxToRect rep.bbox)) = false := by
        intro sp
        cases rectIntersects sp.rect (bboxToRect rep.bbox) <;> rfl
      simp [hfalse, String.join]
  · intro hne
    refine ⟨?_, styledPage_spans lib page (bboxToRect rep.bbox)
              (pyStrip rep.replacement_text) rep.style⟩
    rw [applyReplacement_eq_of_valid hvalid hpage]
    simp [replacedPage, hne]

/-- Witness for C5, redacting pageA's only span: extraction over the
redacted region is empty. -/
theorem C5_hard_redact_witness :
    validPageIdx (List.length [pageA]) repRedact.page = true
  ∧ [pageA][(effIdx (List.length [pageA]) repRedact.page).toNat]? = some pageA
  ∧ pyStrip repRedact.replacement_text = ""
  ∧ extractTextIn (redactedPage pageA (bboxToRect repRedact.bbox))
      (bboxToRect repRedact.bbox) = "" :=
  ⟨by decide, by decide, by decide,
   ((C5_hard_redact libA [pageA] repRedact pageA (by decide) (by decide)).1
      (by decide)).2.2⟩

/-! ## Claims C8 and C10: the annotation burner -/

/-- Helper: one annotation application preserves the page count. -/
theorem applyAnnot_length (lib : PdfLib) (doc : List RPage) (a : AnnotRec) :
    (applyAnnot lib doc a).length = doc.length := by
  simp only [applyAnnot]
  split
  · rfl
  · split <;> simp

/-- Helper: the annotation loop preserves the page count. -/
theorem annotLoop_length (lib : PdfLib) :
    ∀ (annots : List AnnotRec) (doc : List RPage),
      (annots.foldl (applyAnnot lib) doc).length = doc.length := by
  intro annots
  induction annots with
  | nil => intro doc; rfl
  | cons a rest ih =>
      intro doc
      simp only [List.foldl_cons]
      rw [ih, applyAnnot_length]

/-- Claim C8: the burner succeeds for every document and annotation list
(including the empty one), preserves the page count, and the last drawing
operation of every output page is the watermark stamp: the watermark text
at font size 10 in bold Helvetica ("hebo"), light gray 0.7, horizontally
centered via the measured text width, 20 points above the bottom edge. -/
theorem C8_watermark_every_page (lib : PdfLib) (doc : List RPage)
    (annots : List AnnotRec) (watermark_text : String) :
    (generate_annotated_pdf lib (.ok doc) annots watermark_text).success = true
  ∧ (generate_annotated_pdf lib (.ok doc) annots watermark_text).pages.length
      = doc.length
  ∧ ∀ pg ∈ (generate_annotated_pdf lib (.ok doc) annots watermark_text).pages,
      pg.ops.getLast? = some (.textAt
        ⟨(pg.width - lib.textLength watermark_text "hebo" 10) / 2, pg.height - 20⟩
        watermark_text 10 "hebo" (7/10, 7/10, 7/10)) := by
  refine ⟨rfl, ?_, ?_⟩
  · simp [generate_annotated_pdf, add_watermark, annotLoop_length]
  · intro pg hpg
    simp only [generate_annotated_pdf, add_watermark, List.mem_map] at hpg
    obtain ⟨q, hq, rfl⟩ := hpg
    simp [watermarkOp, List.getLast?_concat]

/-- The single page of the watermark-only run on pageA. -/
def pageAWm : RPage :=
  { pageA with ops := [watermarkOp libA "Reviewed by x" pageA] }

/-- Witness for C8: the watermark-only run on the one-page document. -/
theorem C8_watermark_every_page_witness :
    pageAWm ∈ (generate_annotated_pdf libA (.ok [pageA]) [] "Reviewed by x").pages
  ∧ pageAWm.ops.getLast? = some (.textAt
      ⟨(pageAWm.width - libA.textLength "Reviewed by x" "hebo" 10) / 2,
       pageAWm.height - 20⟩
      "Reviewed by x" 10 "hebo" (7/10, 7/10, 7/10)) := by
  have hpages : (generate_annotated_pdf libA (.ok [pageA]) [] "Reviewed by x").pages
      = [pageAWm] := rfl
  have hmem : pageAWm ∈ (generate_annotated_pdf libA (.ok [pageA]) [] "Reviewed by x").pages := by
    rw [hpages]
    exact List.mem_singleton.mpr rfl
  exact ⟨hmem,
    (C8_watermark_every_page libA [pageA] [] "Reviewed by x").2.2 pageAWm hmem⟩

/-- Claim C10: an annotation whose page number is negative or at least
the page count is skipped silently — burning the list with it equals
burning the list without it, nothing is drawn for it, no error is raised,
and the remaining annotations and the watermark still apply. -/
theorem C10_invalid_page_skipped (lib : PdfLib) (doc : List RPage)
    (a : AnnotRec) (rest : List AnnotRec) (watermark_text : String)
    (hbad : a.page_number.getD 0 < 0 ∨ (doc.length : Int) ≤ a.page_number.getD 0) :
    generate_annotated_pdf lib (.ok doc) (a :: rest) watermark_text
      = generate_annotated_pdf lib (.ok doc) rest watermark_text
  ∧ (generate_annotated_pdf lib (.ok doc) (a :: rest) watermark_text).success
      = true := by
  have hskip : applyAnnot lib doc a = doc := by
    simp only [applyAnnot]
    rw [if_pos hbad]
  constructor
  · simp [generate_annotated_pdf, List.foldl_cons, hskip]
  · rfl

/-- An annotation addressing page 3 of a one-page document. -/
def annotBad : AnnotRec :=
  { page_number := some 3,
    position := some ⟨some 10, some 10, some 50, some 20⟩,
    content := some ⟨none, some "check dates"⟩,
    annotType := some "highlight" }

/-- Witness for C10: the out-of-range annotation on the one-page document
changes nothing. -/
theorem C10_invalid_page_skipped_witness :
    (annotBad.page_number.getD 0 < 0
       ∨ ((List.length [pageA] : Nat) : Int) ≤ annotBad.page_number.getD 0)
  ∧ generate_annotated_pdf libA (.ok [pageA]) [annotBad] "Reviewed by x"
      = generate_annotated_pdf libA (.ok [pageA]) [] "Reviewed by x" :=
  ⟨by decide,
   (C10_invalid_page_skipped libA [pageA] annotBad [] "Reviewed by x" (by decide)).1⟩

/-! ## Claim C6: confidence constants -/

/-- Helper: every detection emitted over a rectangle list carries the
emission's confidence and type. -/
theorem emitRects_mem {pg : DetPage} {txt ty : String} {page_num : Nat}
    {conf : Rat} :
    ∀ (rects : List Rect) (n : Nat) (d : Detection),
      d ∈ (emitRects pg txt ty page_num conf rects n).1 →
      d.confidence = conf ∧ d.ty = ty := by
  intro rects
  induction rects with
  | nil => intro n d h; simp [emitRects] at h
  | cons r rs ih =>
      intro n d h
      simp only [emitRects, List.mem_cons] at h
      rcases h with rfl | h
      · exact ⟨rfl, rfl⟩
      · exact ih (n + 1) d h

/-- Helper: detections of `_find_text_coords` carry the call's confidence
and type. -/
theorem find_text_coords_mem {pg : DetPage} {txt ty : String}
    {page_num : Nat} {conf : Rat} {n : Nat} {d : Detection}
    (h : d ∈ (find_text_coords pg txt ty page_num conf n).1) :
    d.confidence = conf ∧ d.ty = ty := by
  simp only [find_text_coords] at h
  split at h
  · exact emitRects_mem _ _ _ h
  · exact emitRects_mem _ _ _ h

/-- Helper: detections of the regex match loop have confidence 1 and the
pattern's type. -/
theorem emitMatches_mem {pg : DetPage} {ty : String} {page_num : Nat} :
    ∀ (ms : List String) (n : Nat) (d : Detection),
      d ∈ (emitMatches pg ty page_num ms n).1 →
      d.confidence = 1 ∧ d.ty = ty := by
  intro ms
  induction ms with
  | nil => intro n d h; simp [emitMatches] at h
  | cons m ms ih =>
      intro n d h
      simp only [emitMatches, List.mem_append] at h
      rcases h with h | h
      · exact emitRects_mem _ _ _ h
      · exact ih _ d h

/-- Helper: every regex-sourced detection has confidence exactly 1. -/
theorem detect_pii_regex_mem {pg : DetPage} {page_num n : Nat} {d : Detection}
    (h : d ∈ (detect_pii_regex pg page_num n).1) : d.confidence = 1 := by
  simp only [detect_pii_regex, find_pattern_coords, List.mem_append] at h
  rcases h with ((((((h | h) | h) | h) | h) | h) | h) <;>
    exact (emitMatches_mem _ _ _ h).1

/-- Helper: a detection of one category loop is either from the incoming
accumulator or carries the category's confidence and type. -/
theorem emitCategory_mem {pg : DetPage} {ty : String} {page_num : Nat}
    {conf : Rat} :
    ∀ (strs : List String) (acc : List Detection × Nat) (d : Detection),
      d ∈ (emitCategory pg ty page_num conf strs acc).1 →
      d ∈ acc.1 ∨ (d.confidence = conf ∧ d.ty = ty) := by
  intro strs
  induction strs with
  | nil => intro acc d h; exact Or.inl h
  | cons s ss ih =>
      intro acc d h
      simp only [emitCategory] at h
      rcases ih _ d h with h' | h'
      · rcases List.mem_append.mp h' with h'' | h''
        · exact Or.inl h''
        · exact Or.inr (find_text_coords_mem h'')
      · exact Or.inr h'

/-- Helper: every AI-sourced detection carries its category's fixed
confidence constant. -/
theorem detect_pii_ai_mem {llm : String → Except String Entities}
    {pg : DetPage} {page_text : String} {page_num n : Nat} {d : Detection}
    (h : d ∈ (detect_pii_ai llm pg page_text page_num n).1) :
    (d.ty = "name" ∧ d.confidence = 9 / 10)
    ∨ (d.ty = "company" ∧ d.confidence = 85 / 100)
    ∨ (d.ty = "school" ∧ d.confidence = 85 / 100)
    ∨ (d.ty = "address" ∧ d.confidence = 8 / 10) := by
  simp only [detect_pii_ai] at h
  split at h
  · simp at h
  · rcases emitCategory_mem _ _ _ h with h1 | h1
    · rcases emitCategory_mem _ _ _ h1 with h2 | h2
      · rcases emitCategory_mem _ _ _ h2 with h3 | h3
        · rcases emitCategory_mem _ _ _ h3 with h4 | h4
          · simp at h4
          · exact Or.inl ⟨h4.2, h4.1⟩
        · exact Or.inr (Or.inl ⟨h3.2, h3.1⟩)
      · exact Or.inr (Or.inr (Or.inl ⟨h2.2, h2.1⟩))
    · exact Or.inr (Or.inr (Or.inr ⟨h1.2, h1.1⟩))

/-- Helper: every detection of the page loop has confidence between 0
and 1. -/
theorem detectPages_conf {llm : String → Except String Entities} :
    ∀ (pages : List DetPage) (page_num n : Nat) (d : Detection),
      d ∈ (detectPages llm pages page_num n).1 →
      0 ≤ d.confidence ∧ d.confidence ≤ 1 := by
  intro pages
  induction pages with
  | nil => intro _ _ d h; simp [detectPages] at h
  | cons pg rest ih =>
      intro page_num n d h
      simp only [detectPages, List.mem_append] at h
      rcases h with (h | h) | h
      · rw [detect_pii_regex_mem h]
        norm_num
      · rcases detect_pii_ai_mem h with ⟨_, hc⟩ | ⟨_, hc⟩ | ⟨_, hc⟩ | ⟨_, hc⟩ <;>
          rw [hc] <;> constructor <;> norm_num
      · exact ih _ _ d h

/-- Claim C6: confidence is exactly 1 for every regex-sourced detection;
every AI-sourced detection carries exactly its category's constant (0.90
names, 0.85 companies and schools, 0.80 addresses); and every detection
of the full pipeline has confidence in the interval from 0 to 1. -/
theorem C6_confidence_invariant (llm : String → Except String Entities) :
    (∀ (pg : DetPage) (page_num n : Nat) (d : Detection),
       d ∈ (detect_pii_regex pg page_num n).1 → d.confidence = 1)
  ∧ (∀ (pg : DetPage) (page_text : String) (page_num n : Nat) (d : Detection),
       d ∈ (detect_pii_ai llm pg page_text page_num n).1 →
       (d.ty = "name" ∧ d.confidence = 9 / 10)
       ∨ (d.ty = "company" ∧ d.confidence = 85 / 100)
       ∨ (d.ty = "school" ∧ d.confidence = 85 / 100)
       ∨ (d.ty = "address" ∧ d.confidence = 8 / 10))
  ∧ (∀ (opened : Except String (List DetPage)) (d : Detection),
       d ∈ (detect_pii_with_coordinates llm opened).detections →
       0 ≤ d.confidence ∧ d.confidence ≤ 1) := by
  refine ⟨?_, ?_, ?_⟩
  · intro pg page_num n d h
    exact detect_pii_regex_mem h
  · intro pg page_text page_num n d h
    exact detect_pii_ai_mem h
  · intro opened d h
    match opened with
    | .error e => simp [detect_pii_with_coordinates] at h
    | .ok doc => exact detectPages_conf doc 0 0 d h

/-- The single detection of the concrete regex run on detPageB. -/
def detB : Detection :=
  { id := 0, ty := "email", text := "jane@example.com", page := 0,
    bbox := rectToBBox ⟨72, 72, 180, 84⟩, confidence := 1,
    style := extract_text_with_style detPageB.blocks (rectToBBox ⟨72, 72, 180, 84⟩) }

/-- Witness for C6, at the concrete one-detection pipeline run. -/
theorem C6_confidence_invariant_witness :
    detB ∈ (detect_pii_regex detPageB 0 0).1
  ∧ detB.confidence = 1
  ∧ detB ∈ (detect_pii_with_coordinates llmFail (.ok [detPageB])).detections
  ∧ 0 ≤ detB.confidence ∧ detB.confidence ≤ 1 := by
  have h1 : (detect_pii_regex detPageB 0 0).1 = [detB] := rfl
  have h2 : (detect_pii_with_coordinates llmFail (.ok [detPageB])).detections
      = [detB] := rfl
  have m1 : detB ∈ (detect_pii_regex detPageB 0 0).1 := by
    rw [h1]; exact List.mem_singleton.mpr rfl
  have m2 : detB ∈ (detect_pii_with_coordinates llmFail (.ok [detPageB])).detections := by
    rw [h2]; exact List.mem_singleton.mpr rfl
  exact ⟨m1, (C6_confidence_invariant llmFail).1 detPageB 0 0 detB m1, m2,
    (C6_confidence_invariant llmFail).2.2 (.ok [detPageB]) detB m2⟩

/-! ## Claim C9: quadratic fan-out of repeated regex matches -/

/-- Helper: the bboxes of an emission run are the converted input
rectangles. -/
theorem emitRects_map_bbox {pg : DetPage} {txt ty : String} {page_num : Nat}
    {conf : Rat} :
    ∀ (rects : List Rect) (n : Nat),
      (emitRects pg txt ty page_num conf rects n).1.map (fun d => d.bbox)
        = rects.map rectToBBox := by
  intro rects
  induction rects with
  | nil => intro n; rfl
  | cons r rs ih => intro n; simp [emitRects, ih]

/-- Helper: the ids of an emission run are consecutive from the counter. -/
theorem emitRects_map_id {pg : DetPage} {txt ty : String} {page_num : Nat}
    {conf : Rat} :
    ∀ (rects : List Rect) (n : Nat),
      (emitRects pg txt ty page_num conf rects n).1.map (fun d => d.id)
        = List.range' n rects.length := by
  intro rects
  induction rects with
  | nil => intro n; rfl
  | cons r rs ih =>
      intro n
      simp only [emitRects, List.map_cons, ih, List.length_cons]
      rw [List.range'_succ]

/-- Helper: an emission run advances the id counter by the rectangle
count. -/
theorem emitRects_snd {pg : DetPage} {txt ty : String} {page_num : Nat}
    {conf : Rat} :
    ∀ (rects : List Rect) (n : Nat),
      (emitRects pg txt ty page_num conf rects n).2 = n + rects.length := by
  intro rects
  induction rects with
  | nil => intro n; rfl
  | cons r rs ih =>
      intro n
      simp only [emitRects, ih, List.length_cons]
      omega

/-- Helper: the match loop over m identical matches emits the searched
rectangle list m times over, with consecutive ids. -/
theorem emitMatches_replicate {pg : DetPage} {ty : String} {page_num : Nat}
    {s : String} {rects : List Rect} (hsearch : pg.search_for s = rects) :
    ∀ (m n : Nat),
      (emitMatches pg ty page_num (List.replicate m s) n).1.map (fun d => d.bbox)
        = (List.replicate m (rects.map rectToBBox)).flatten
      ∧ (emitMatches pg ty page_num (List.replicate m s) n).1.map (fun d => d.id)
        = List.range' n (m * rects.length)
      ∧ (emitMatches pg ty page_num (List.replicate m s) n).2
        = n + m * rects.length := by
  intro m
  induction m with
  | zero =>
      intro n
      refine ⟨by simp [emitMatches], by simp [emitMatches], by simp [emitMatches]⟩
  | succ k ih =>
      intro n
      obtain ⟨ihb, ihi, ihn⟩ := ih (n + rects.length)
      refine ⟨?_, ?_, ?_⟩
      · simp only [List.replicate_succ, emitMatches, hsearch, List.map_append,
          emitRects_map_bbox, emitRects_snd, List.flatten_cons, ihb]
      · simp only [List.replicate_succ, emitMatches, hsearch, List.map_append,
          emitRects_map_id, emitRects_snd, ihi]
        rw [List.range'_append_1]
        congr 1
        rw [Nat.succ_mul, Nat.add_comm]
      · simp only [List.replicate_succ, emitMatches, hsearch, emitRects_snd, ihn]
        rw [Nat.succ_mul]
        omega

/-- Helper: counting inside a flattened replication multiplies the
count. -/
theorem count_flatten_replicate {α : Type} [DecidableEq α] (a : α) :
    ∀ (m : Nat) (xs : List α),
      ((List.replicate m xs).flatten.count a) = m * xs.count a := by
  intro m
  induction m with
  | zero => intro xs; simp
  | succ k ih =>
      intro xs
      simp only [List.replicate_succ, List.flatten_cons, List.count_append, ih]
      rw [Nat.succ_mul, Nat.add_comm]

/-- Helper: the rect-to-bbox conversion is injective. -/
theorem rectToBBox_injective : Function.Injective rectToBBox := by
  intro a b h
  simp only [rectToBBox, BBox.mk.injEq] at h
  obtain ⟨h1, h2, h3, h4⟩ := h
  cases a
  cases b
  simp only [Rect.mk.injEq]
  simp only at h1 h2 h3 h4
  refine ⟨h1, h2, ?_, ?_⟩ <;> [skip; skip] <;> subst h1 <;> subst h2 <;>
    [linarith; linarith]

/-- Claim C9: when a page's text holds n identical occurrences of a
regex-matched substring — i.e. the match iterator yields the same string
n times and the whole-page search resolves it to the n distinct physical
rectangles — `_find_pattern_coords` emits n·n detections: every physical
rectangle's bbox appears n times, and all ids are distinct. -/
theorem C9_quadratic_fanout (pg : DetPage) (pat s ty : String)
    (page_num : Nat) (rects : List Rect)
    (hfind : pg.finditer pat = List.replicate rects.length s)
    (hsearch : pg.search_for s = rects)
    (hnodup : rects.Nodup) :
    (find_pattern_coords pg pat ty page_num 0).1.length
      = rects.length * rects.length
  ∧ (∀ r ∈ rects,
      ((find_pattern_coords pg pat ty page_num 0).1.map (fun d => d.bbox)).count
          (rectToBBox r)
        = rects.length)
  ∧ ((find_pattern_coords pg pat ty page_num 0).1.map (fun d => d.id)).Nodup := by
  obtain ⟨hb, hi, -⟩ := emitMatches_replicate hsearch rects.length 0
  rw [find_pattern_coords, hfind]
  refine ⟨?_, ?_, ?_⟩
  · have := congrArg List.length hi
    simpa using this
  · intro r hr
    rw [hb, count_flatten_replicate]
    have hmem : rectToBBox r ∈ rects.map rectToBBox := List.mem_map_of_mem _ hr
    have hnd : (rects.map rectToBBox).Nodup := hnodup.map rectToBBox_injective
    rw [List.count_eq_one_of_mem hnd hmem, Nat.mul_one]
  · rw [hi]
    exact List.nodup_range' 0 (rects.length * rects.length)

/-- A page holding two identical email occurrences, each physically at
its own rectangle. -/
def detPageC9 : DetPage :=
  { textOf := "a@b.co a@b.co",
    finditer := fun pat => if pat = emailPat then ["a@b.co", "a@b.co"] else [],
    search_for := fun t =>
      if t = "a@b.co" then [⟨10, 10, 40, 20⟩, ⟨10, 30, 40, 40⟩] else [],
    search_for_ws := fun _ => [],
    blocks := [] }

/-- Witness for C9: two identical matches over two rectangles yield four
detections. -/
theorem C9_quadratic_fanout_witness :
    detPageC9.finditer emailPat
      = List.replicate ([⟨10, 10, 40, 20⟩, ⟨10, 30, 40, 40⟩] : List Rect).length "a@b.co"
  ∧ detPageC9.search_for "a@b.co" = [⟨10, 10, 40, 20⟩, ⟨10, 30, 40, 40⟩]
  ∧ ([⟨10, 10, 40, 20⟩, ⟨10, 30, 40, 40⟩] : List Rect).Nodup
  ∧ (find_pattern_coords detPageC9 emailPat "email" 0 0).1.length = 4 := by
  refine ⟨rfl, rfl, by decide, ?_⟩
  have h := (C9_quadratic_fanout detPageC9 emailPat "a@b.co" "email" 0
      [⟨10, 10, 40, 20⟩, ⟨10, 30, 40, 40⟩] rfl rfl (by decide)).1
  simpa using h
